import Mathlib

/-
  Verification development for the autotask_youtube node plugin set.

  The cookie-file normalization utility (`get_cookie_file` in
  `cookie_utils.py`) is imported by every node but its source file is not
  part of the repository snapshot; it is modelled here from the design
  document's contract (sections 3, 4.1, 7, 8).  The node `execute`
  methods are embedded from the repository sources, with the wrapped
  download library (youtube-dl / yt-dlp) represented by oracles.
-/

/-- One browser-exported JSON cookie object.  Fields that the export may
omit are `Option`; `expires` is the timestamp already converted to whole
seconds. -/
structure CookieJSON where
  name : String
  value : String
  domain : String
  path : Option String
  secure : Option Bool
  expires : Option Int
deriving Repr, DecidableEq

/-- Render a boolean as the Netscape-format column value. -/
def boolFlag (b : Bool) : String := if b then "TRUE" else "FALSE"

/-- Whether a domain string begins with the character `.` (used for the
include-subdomains column). -/
def domainLeadingDot (d : String) : Bool :=
  match d.toList with
  | [] => false
  | c :: _ => c = '.'

/-- The seven columns of one Netscape-format line, in the fixed order:
domain, include-subdomains flag, path, secure flag, expiry, name, value. -/
def cookieLineFields (c : CookieJSON) : List String :=
  [c.domain,
   boolFlag (domainLeadingDot c.domain),
   c.path.getD "/",
   boolFlag (c.secure.getD false),
   toString (c.expires.getD 0),
   c.name,
   c.value]

/-- One tab-separated Netscape-format line for a cookie record. -/
def cookieLine (c : CookieJSON) : String :=
  String.intercalate "\t" (cookieLineFields c)

/-- The standard Netscape cookie file header comment line. -/
def netscapeHeader : String := "# Netscape HTTP Cookie File"

/-- All lines of the converted file: the header followed by one line per
input record. -/
def netscapeLines (records : List CookieJSON) : List String :=
  netscapeHeader :: records.map cookieLine

/-- The full text content of the converted file. -/
def netscapeFileContent (records : List CookieJSON) : String :=
  String.intercalate "\n" (netscapeLines records)

/-- Content of a file as the normalizer's format detection classifies it:
an empty file, content parsing as a JSON array of cookie objects, or any
other text (Netscape-format lines, malformed JSON, or a JSON value whose
top level is not an array). -/
inductive FileData where
  | emptyFile : FileData
  | jsonArray : List CookieJSON → FileData
  | otherText : String → FileData
deriving Repr, DecidableEq

/-- Result of one normalizer call: the returned path-or-null, and the
state of the file store after the call. -/
structure GcfResult where
  ret : Option String
  fs : String → Option FileData

/-- Modelled from the spec: the repository imports `get_cookie_file` from
`cookie_utils.py`, a file missing from the snapshot.  Per the design
document's contract for `normalize(path)`: an empty path or a missing or
empty source file yields null; content parsing as a JSON array of cookie
objects is converted to Netscape format and written to a fresh temporary
file whose path is returned (null on write failure); all other content is
treated as already in Netscape format and the original path is returned
unchanged.  The file store is a map from paths to contents, `writeOk`
models whether the temp-storage write succeeds, and `tmpPath` is the
temporary path the call would allocate. -/
def get_cookie_file (fs : String → Option FileData) (writeOk : Bool)
    (tmpPath : String) (path : String) : GcfResult :=
  if path.isEmpty then ⟨none, fs⟩
  else
    match fs path with
    | none => ⟨none, fs⟩
    | some .emptyFile => ⟨none, fs⟩
    | some (.jsonArray records) =>
        if writeOk then
          ⟨some tmpPath,
           fun q => if q = tmpPath then
             some (.otherText (netscapeFileContent records))
           else fs q⟩
        else ⟨none, fs⟩
    | some (.otherText _) => ⟨some path, fs⟩

/-- Python truthiness of a path-or-None value: None and the empty string
are falsy. -/
def truthyOpt : Option String → Bool
  | none => false
  | some s => !s.isEmpty

/-- The cookie block shared by every node's `execute`: when the
`cookie_file` input is non-empty, call `get_cookie_file` (here an oracle
`gcf` returning a path or None) and keep its result for the `cookiefile`
option only when truthy. -/
def cookieFileOption (cookie_file : String) (gcf : String → Option String) :
    Option String :=
  if cookie_file.isEmpty then none
  else
    match gcf cookie_file with
    | none => none
    | some s => if s.isEmpty then none else some s

/-- The part of a node's returned dictionary every claim inspects. -/
structure NodeResult where
  success : Bool
  error_message : Option String
deriving Repr, DecidableEq

/-- Whether `pat` occurs as a contiguous run at the front of `l`. -/
def leadMatch : List Char → List Char → Bool
  | [], _ => true
  | _ :: _, [] => false
  | a :: as, b :: bs => a = b && leadMatch as bs

/-- Whether `pat` occurs as a contiguous run anywhere in the list. -/
def containsSeq (pat : List Char) : List Char → Bool
  | [] => pat.isEmpty
  | b :: bs => leadMatch pat (b :: bs) || containsSeq pat bs

/-- Python's `pat in s` substring test. -/
def strContains (s pat : String) : Bool :=
  containsSeq pat.toList s.toList

/-- The marker text raised by the progress hooks on interruption. -/
def interruptMarker : String := "Download interrupted by user"

/-- Text of Python's `str(KeyError(k))` for a missing required input, as
the model renders it. -/
def keyErrText (k : String) : String := "KeyError: " ++ k

/-- `download.py` maps an exception text containing the interruption
marker to the fixed marker message, and any other text to itself. -/
def mapDownloadError (e : String) : String :=
  if strContains e interruptMarker then interruptMarker else e

namespace DownloadPy

/-- Inputs of `YouTubeDownloadNode.execute` in `download.py`; the
required `url` key is `Option` so a missing key (Python `KeyError`) is
representable. -/
structure Inputs where
  url : Option String
  output_dir : String
  fmt : String
  extract_audio : Bool
  audio_format : String
  audio_quality : Nat
  write_subs : Bool
  write_auto_subs : Bool
  sub_langs : String
  cookie_file : String

/-- The youtube-dl options dictionary fields `download.py` sets. -/
structure Opts where
  fmt : String
  outtmpl : String
  writesubtitles : Bool
  writeautomaticsub : Bool
  subtitleslangs : List String
  cookiefile : Option String
  audioPostprocessor : Option (String × String)
deriving Repr, DecidableEq

/-- The fields of the extracted info dictionary the node reads. -/
structure Info where
  title : String
  ext : String
  duration : Nat
  requested_subtitles : Option (List String)

/-- Oracle for the wrapped youtube-dl library: the info-only extraction,
the downloading extraction, and the `os.path.exists` probe for subtitle
files.  An `Except.error` models an exception with the given text. -/
structure Lib where
  extractInfo : Opts → Except String Info
  download : Opts → Except String Info
  subExists : String → Bool

/-- The per-instance mutable fields used for cooperative cancellation. -/
structure NodeState where
  ydl_set : Bool
  interrupted : Bool
deriving Repr, DecidableEq

/-- Everything one call of `execute` produces: the returned dictionary,
the instance state on return, and how often `get_cookie_file` ran. -/
structure Outcome where
  result : NodeResult
  state : NodeState
  gcfCalls : Nat

/-- The options dictionary as built by `download.py` lines 161-189:
base options, then the cookie block, then the audio postprocessor. -/
def buildOpts (inp : Inputs) (gcf : String → Option String)
    (outDir : String) : Opts :=
  { fmt := inp.fmt
    outtmpl := outDir ++ "/%(title)s.%(ext)s"
    writesubtitles := inp.write_subs
    writeautomaticsub := inp.write_auto_subs
    subtitleslangs :=
      if inp.sub_langs = "all" then ["all"] else inp.sub_langs.splitOn ","
    cookiefile := cookieFileOption inp.cookie_file gcf
    audioPostprocessor :=
      if inp.extract_audio then
        some (inp.audio_format, toString inp.audio_quality)
      else none }

/-- The subtitle files collected after a completed download. -/
def collectSubs (inp : Inputs) (info : Info) (subEx : String → Bool)
    (basePath : String) : List String :=
  if (inp.write_subs || inp.write_auto_subs) then
    match info.requested_subtitles with
    | some langs =>
        (langs.map (fun lang => basePath ++ "." ++ lang ++ ".vtt")).filter
          subEx
    | none => []
  else []

/-- Embedding of `YouTubeDownloadNode.execute` from `download.py`.
`s0` is the instance state on entry; `stopEarly` (resp. `stopMid`) means
the host's `stop()` lands before the inner `try` (resp. between the
info-only extraction and the interruption check).  The inner `finally`
resets both mutable fields; an exception before the inner `try` (a
missing `url` key) returns through the outer handler without any reset. -/
def execute (s0 : NodeState) (stopEarly stopMid : Bool) (inp : Inputs)
    (lib : Lib) (gcf : String → Option String) : Outcome :=
  let s1 : NodeState := { s0 with interrupted := s0.interrupted || stopEarly }
  match inp.url with
  | none =>
      ⟨⟨false, some (mapDownloadError (keyErrText "url"))⟩, s1, 0⟩
  | some _ =>
      let outDir := if inp.output_dir.isEmpty then "/tmp/mkdtemp" else inp.output_dir
      let opts := buildOpts inp gcf outDir
      let calls := if inp.cookie_file.isEmpty then 0 else 1
      let reset : NodeState := ⟨false, false⟩
      match lib.extractInfo opts with
      | .error e => ⟨⟨false, some (mapDownloadError e)⟩, reset, calls⟩
      | .ok _ =>
          if s1.interrupted || stopMid then
            ⟨⟨false, some "Download interrupted after info extraction"⟩,
             reset, calls⟩
          else
            match lib.download opts with
            | .error e => ⟨⟨false, some (mapDownloadError e)⟩, reset, calls⟩
            | .ok info =>
                let filePath :=
                  if inp.extract_audio then
                    outDir ++ "/" ++ info.title ++ "." ++ inp.audio_format
                  else
                    outDir ++ "/" ++ info.title ++ "." ++ info.ext
                let basePath := outDir ++ "/" ++ info.title
                let _ := collectSubs inp info lib.subExists basePath
                let _ := filePath
                ⟨⟨true, none⟩, reset, calls⟩

end DownloadPy

namespace SearchNode

/-- Inputs of `YouTubeSearchNode.execute` in `youtube_search_node.py`;
the three required keys are `Option` so a missing key is representable. -/
structure Inputs where
  search_query : Option String
  max_results : Option Nat
  sort_by : Option String
  cookie_file : String

/-- The yt-dlp options dictionary fields the search node sets. -/
structure Opts where
  quiet : Bool
  no_warnings : Bool
  extract_flat : Bool
  cookiefile : Option String
deriving Repr, DecidableEq

/-- One flat search result entry; `none` models a falsy entry. -/
structure Entry where
  id : String
  title : Option String

/-- The options dictionary as built by `youtube_search_node.py` lines
85-98: the base options, then the cookie block. -/
def buildOpts (cookie_file : String) (gcf : String → Option String) : Opts :=
  { quiet := true
    no_warnings := true
    extract_flat := true
    cookiefile := cookieFileOption cookie_file gcf }

/-- Embedding of `YouTubeSearchNode.execute`.  The library oracle maps
the options to an exception text, or to `none` when the results are
falsy or carry no `entries` key, or to the entry list. -/
def execute (inp : Inputs)
    (lib : Opts → Except String (Option (List (Option Entry))))
    (gcf : String → Option String) : NodeResult :=
  match inp.search_query, inp.max_results, inp.sort_by with
  | some _, some _, some _ =>
      let opts := buildOpts inp.cookie_file gcf
      match lib opts with
      | .error e => ⟨false, some e⟩
      | .ok none => ⟨false, some "No results found"⟩
      | .ok (some entries) =>
          let kept := entries.filterMap id
          let _ := kept.map (fun en => "https://www.youtube.com/watch?v=" ++ en.id)
          let _ := kept.map (fun en => en.title.getD "Unknown Title")
          ⟨true, none⟩
  | none, _, _ => ⟨false, some (keyErrText "search_query")⟩
  | _, none, _ => ⟨false, some (keyErrText "max_results")⟩
  | _, _, none => ⟨false, some (keyErrText "sort_by")⟩

end SearchNode

namespace InfoNode

/-- Inputs of `YouTubeInfoNode.execute` in `youtube_info_node.py`. -/
structure Inputs where
  url : Option String
  cookie_file : String

/-- The yt-dlp options dictionary fields the info node sets. -/
structure Opts where
  quiet : Bool
  no_warnings : Bool
  writesubtitles : Bool
  listsubtitles : Bool
  cookiefile : Option String
deriving Repr, DecidableEq

/-- The info-dictionary fields the node formats into its outputs. -/
structure Info where
  title : Option String
  duration : Option Nat
  view_count : Option Nat
  subtitles : List String
  automatic_captions : List String

/-- The options dictionary as built by `youtube_info_node.py` lines
138-152: the base options, then the cookie block. -/
def buildOpts (cookie_file : String) (gcf : String → Option String) : Opts :=
  { quiet := true
    no_warnings := true
    writesubtitles := true
    listsubtitles := true
    cookiefile := cookieFileOption cookie_file gcf }

/-- Embedding of `YouTubeInfoNode.execute`: extract the info through the
library oracle, format the fields, and wrap any exception text into a
failure dictionary. -/
def execute (inp : Inputs) (lib : Opts → Except String Info)
    (gcf : String → Option String) : NodeResult :=
  match inp.url with
  | none => ⟨false, some (keyErrText "url")⟩
  | some _ =>
      let opts := buildOpts inp.cookie_file gcf
      match lib opts with
      | .error e => ⟨false, some e⟩
      | .ok info =>
          let _ := info.title.getD "Unknown"
          let _ := info.subtitles.length + info.automatic_captions.length
          ⟨true, none⟩

end InfoNode

namespace SubtitleNode

/-- Inputs of `YouTubeSubtitleNode.execute` in
`youtube_subtitle_node.py`. -/
structure Inputs where
  url : Option String
  language : Option String
  save_path : Option String
  cookie_file : String

/-- The yt-dlp options dictionary fields the subtitle node sets. -/
structure Opts where
  skip_download : Bool
  writesubtitles : Bool
  writeautomaticsub : Bool
  subtitleslangs : List String
  cookiefile : Option String
deriving Repr, DecidableEq

/-- Library oracle: the downloading extraction returns the base filename
(`prepare_filename` minus extension) or raises; `subEx` is the
`os.path.exists` probe. -/
structure Lib where
  extract : Opts → Except String String
  subEx : String → Bool

/-- The options dictionary as built by `youtube_subtitle_node.py` lines
77-92: the base options, then the cookie block. -/
def buildOpts (language cookie_file : String)
    (gcf : String → Option String) : Opts :=
  { skip_download := true
    writesubtitles := true
    writeautomaticsub := true
    subtitleslangs := [language]
    cookiefile := cookieFileOption cookie_file gcf }

/-- Embedding of `YouTubeSubtitleNode.execute`: extract through the
library oracle, then look for the manual subtitle file and fall back to
the auto-generated one; wrap any exception text into a failure
dictionary. -/
def execute (inp : Inputs) (lib : Lib)
    (gcf : String → Option String) : NodeResult :=
  match inp.url, inp.language, inp.save_path with
  | some _, some language, some _ =>
      let opts := buildOpts language inp.cookie_file gcf
      match lib.extract opts with
      | .error e => ⟨false, some e⟩
      | .ok base =>
          let subtitleFile := base ++ "." ++ language ++ ".vtt"
          let autoFile := base ++ "." ++ language ++ ".auto.vtt"
          if lib.subEx subtitleFile then ⟨true, none⟩
          else if lib.subEx autoFile then ⟨true, none⟩
          else ⟨false, some ("No subtitles available for language: " ++ language)⟩
  | none, _, _ => ⟨false, some (keyErrText "url")⟩
  | _, none, _ => ⟨false, some (keyErrText "language")⟩
  | _, _, none => ⟨false, some (keyErrText "save_path")⟩

end SubtitleNode

namespace YtDlpDownload

/-- Inputs of `YouTubeDownloadNode.execute` in
`youtube_download_node.py` (the yt-dlp variant). -/
structure Inputs where
  url : Option String
  download_path : Option String
  quality : Option String
  separate_audio : Bool
  subtitle_langs : String
  cookie_file : String

/-- One entry of the info dictionary's `formats` list, with the fields
the format-selection logic reads. -/
structure Fmt where
  format_id : String
  ext : String
  vcodec : String
  acodec : String
deriving Repr, DecidableEq

/-- The info-dictionary fields this node reads. -/
structure Info where
  subtitles : List String
  automatic_captions : List String
  formats : List Fmt

/-- Video-only streams: `vcodec` set and `acodec` equal to `none`. -/
def videoCandidates (fs : List Fmt) : List Fmt :=
  fs.filter (fun f => f.vcodec != "none" && f.acodec == "none")

/-- Audio-only streams: `acodec` set and `vcodec` equal to `none`. -/
def audioCandidates (fs : List Fmt) : List Fmt :=
  fs.filter (fun f => f.acodec != "none" && f.vcodec == "none")

/-- Preferred stream of a candidate list: first mp4-like extension, then
webm, then the first candidate. -/
def pickStream (preferred : String) (cands : List Fmt) : Option Fmt :=
  match cands.find? (fun f => f.ext == preferred) with
  | some f => some f
  | none =>
      match cands.find? (fun f => f.ext == "webm") with
      | some f => some f
      | none => cands.head?

/-- The first stream carrying both audio and video. -/
def combinedStream (fs : List Fmt) : Option Fmt :=
  fs.find? (fun f => f.vcodec != "none" && f.acodec != "none")

/-- The format string chosen in lines 142-204 of
`youtube_download_node.py`, or the raised exception's text when no
suitable stream exists. -/
def formatSelect (separate_audio : Bool) (fs : List Fmt) :
    Except String String :=
  let video := pickStream "mp4" (videoCandidates fs)
  let audio := pickStream "m4a" (audioCandidates fs)
  if separate_audio then
    match video, audio with
    | some v, some a => .ok (v.format_id ++ "," ++ a.format_id)
    | some v, none => .ok v.format_id
    | none, some a => .ok a.format_id
    | none, none => .error "No suitable video/audio format found!"
  else
    match combinedStream fs with
    | some c => .ok c.format_id
    | none =>
        match video, audio with
        | some v, some a => .ok (v.format_id ++ "+" ++ a.format_id)
        | some v, none => .ok v.format_id
        | none, some a => .ok a.format_id
        | none, none => .error "No suitable format found!"

/-- Library oracle for this node: the info-only extraction and the
downloading extraction. -/
structure Lib where
  extractInfo : Option String → Except String Info
  download : String → Except String (List String)

/-- What one call of this node's `execute` produces: the returned
dictionary and how often `get_cookie_file` ran. -/
structure Outcome where
  result : NodeResult
  gcfCalls : Nat

/-- Embedding of `YouTubeDownloadNode.execute` from
`youtube_download_node.py`.  The cookie block runs twice: once for the
info-only options (lines 116-119) and once for the download options
(lines 217-224); each run is one `get_cookie_file` invocation when the
`cookie_file` input is non-empty.  The `extractInfo` oracle takes the
cookie option of the info options; the `download` oracle takes the
chosen format string. -/
def execute (inp : Inputs) (lib : Lib)
    (gcf : String → Option String) : Outcome :=
  match inp.url, inp.download_path, inp.quality with
  | some _, some _, some _ =>
      let infoCookie := cookieFileOption inp.cookie_file gcf
      let calls1 := if inp.cookie_file.isEmpty then 0 else 1
      match lib.extractInfo infoCookie with
      | .error e => ⟨⟨false, some e⟩, calls1⟩
      | .ok info =>
          let _ := info.subtitles ++ info.automatic_captions
          match formatSelect inp.separate_audio info.formats with
          | .error e => ⟨⟨false, some e⟩, calls1⟩
          | .ok formatStr =>
              let _ := cookieFileOption inp.cookie_file gcf
              let calls2 := calls1 + (if inp.cookie_file.isEmpty then 0 else 1)
              match lib.download formatStr with
              | .error e => ⟨⟨false, some e⟩, calls2⟩
              | .ok _ => ⟨⟨true, none⟩, calls2⟩
  | none, _, _ => ⟨⟨false, some (keyErrText "url")⟩, 0⟩
  | _, none, _ => ⟨⟨false, some (keyErrText "download_path")⟩, 0⟩
  | _, _, none => ⟨⟨false, some (keyErrText "quality")⟩, 0⟩

end YtDlpDownload

namespace PlaylistPy

/-- One element of `playlist_info` entries: `missing` models a falsy
entry, `present` carries the id used in error messages. -/
inductive PlEntry where
  | missing : PlEntry
  | present : String → PlEntry
deriving Repr, DecidableEq

/-- The fields of a processed video's info dictionary the loop reads;
`title`, `id` and `ext` are looked up with `[...]` in the source, so a
missing key raises inside the per-entry `try`. -/
structure VideoInfo where
  title : Option String
  id : Option String
  ext : Option String
  duration : Option Nat
  requested_subtitles : Option (List String)

/-- Result of `ydl.process_ie_result` on one entry: an exception with
the given text, a falsy info dictionary, or the info dictionary. -/
inductive ProcessOutcome where
  | raised : String → ProcessOutcome
  | nullInfo : ProcessOutcome
  | ok : VideoInfo → ProcessOutcome

/-- The accumulating output lists of the playlist loop. -/
structure PlAcc where
  file_paths : List String
  titles : List String
  durations : List Nat
  subtitle_files : List (List String)
  errors : List String
deriving Repr, DecidableEq

/-- The playlist loop's configuration drawn from the node inputs. -/
structure Cfg where
  output_dir : String
  extract_audio : Bool
  audio_format : String
  write_subs : Bool
  write_auto_subs : Bool

/-- The empty accumulator the loop starts from (lines 259-263). -/
def initAcc : PlAcc := ⟨[], [], [], [], []⟩

/-- The file path built for one processed video, provided the keys it
reads are present (lines 306-309). -/
def entryFilePath (cfg : Cfg) (title id ext : String) : String :=
  if cfg.extract_audio then
    cfg.output_dir ++ "/" ++ title ++ "-" ++ id ++ "." ++ cfg.audio_format
  else
    cfg.output_dir ++ "/" ++ title ++ "-" ++ id ++ "." ++ ext

/-- The subtitle files collected for one processed video
(lines 315-323). -/
def entrySubs (cfg : Cfg) (vi : VideoInfo) (subEx : String → Bool)
    (basePath : String) : List String :=
  if (cfg.write_subs || cfg.write_auto_subs) then
    match vi.requested_subtitles with
    | some langs =>
        (langs.map (fun lang => basePath ++ "." ++ lang ++ ".vtt")).filter
          subEx
    | none => []
  else []

/-- Processing of one non-falsy entry (the body of the per-entry `try`,
lines 293-334): a raised exception or falsy info appends one error; a
processed video appends exactly one element to each of the four output
lists; a missing `title`, `id` or (when the audio is not extracted)
`ext` key raises inside the `try` and appends one error. -/
def plStep (cfg : Cfg) (subEx : String → Bool) (entryId : String)
    (acc : PlAcc) (out : ProcessOutcome) : PlAcc :=
  match out with
  | .raised e =>
      { acc with errors :=
          acc.errors ++ ["Error downloading video " ++ entryId ++ ": " ++ e] }
  | .nullInfo =>
      { acc with errors := acc.errors ++ ["Failed to download video"] }
  | .ok vi =>
      let ext := if cfg.extract_audio then some cfg.audio_format else vi.ext
      match vi.title, vi.id, ext with
      | some title, some id, some e =>
          let filePath := entryFilePath cfg title id e
          let basePath := cfg.output_dir ++ "/" ++ title ++ "-" ++ id
          let subs := entrySubs cfg vi subEx basePath
          { acc with
            file_paths := acc.file_paths ++ [filePath]
            titles := acc.titles ++ [vi.title.getD "Unknown Title"]
            durations := acc.durations ++ [vi.duration.getD 0]
            subtitle_files := acc.subtitle_files ++ [subs] }
      | _, _, _ =>
          { acc with errors :=
              acc.errors ++ ["Error downloading video " ++ entryId ++
                             ": " ++ keyErrText "info field"] }

/-- The download loop over the playlist entries (lines 283-334): break
when the interruption flag is seen at the top of an iteration, record an
error for a falsy entry, and otherwise process the entry through the
oracle `proc`. -/
def playlistLoop (cfg : Cfg) (subEx : String → Bool)
    (stop : Nat → Bool) (proc : Nat → ProcessOutcome) :
    List PlEntry → Nat → PlAcc → PlAcc
  | [], _, acc => acc
  | e :: rest, i, acc =>
      if stop i then acc
      else
        match e with
        | .missing =>
            playlistLoop cfg subEx stop proc rest (i + 1)
              { acc with errors :=
                  acc.errors ++ ["Failed to get info for video"] }
        | .present entryId =>
            playlistLoop cfg subEx stop proc rest (i + 1)
              (plStep cfg subEx entryId acc (proc i))

/-- The loop as `execute` runs it, from the empty accumulator. -/
def playlistRun (cfg : Cfg) (subEx : String → Bool)
    (stop : Nat → Bool) (proc : Nat → ProcessOutcome)
    (entries : List PlEntry) : PlAcc :=
  playlistLoop cfg subEx stop proc entries 1 initAcc

end PlaylistPy
/-- Helper for the C6 claim: the Netscape boolean column reads `TRUE`
exactly for `true`. -/
theorem boolFlag_eq_TRUE (b : Bool) : (boolFlag b = "TRUE") ↔ b = true := by
  cases b <;> decide

/-- Helper for the C6 claim: the include-subdomains test holds exactly
when the domain's first character is `.`. -/
theorem domainLeadingDot_iff (d : String) :
    domainLeadingDot d = true ↔ d.toList.head? = some '.' := by
  unfold domainLeadingDot
  cases h : d.toList with
  | nil => simp
  | cons c cs => simp [decide_eq_true_iff]

/-- C1 (counterexample): the claim says malformed JSON content is a
failure case returning null, but on a file whose content does not parse
as a JSON array the normalizer falls back to pass-through and returns
the original path, a non-null value. -/
theorem c1_counterexample :
    (get_cookie_file
        (fun p => if p = "cookies.txt" then
            some (.otherText "not a json array [") else none)
        true "/tmp/converted.txt" "cookies.txt").ret = some "cookies.txt"
    ∧ (get_cookie_file
        (fun p => if p = "cookies.txt" then
            some (.otherText "not a json array [") else none)
        true "/tmp/converted.txt" "cookies.txt").ret ≠ none := by
  exact ⟨rfl, by decide⟩

/-- C1 (amended): the normalizer is total and never propagates an
exception: every call returns a path or null.  An empty input path, a
missing source file, an empty source file, and a write failure to temp
storage each return null; content that does not parse as a JSON array of
objects is not a null case — the original path is returned unchanged. -/
theorem c1_normalize_taxonomy (fs : String → Option FileData)
    (writeOk : Bool) (tmpPath path : String) :
    ((get_cookie_file fs writeOk tmpPath path).ret = none
      ∨ ∃ s, (get_cookie_file fs writeOk tmpPath path).ret = some s)
    ∧ (path.isEmpty = true →
        (get_cookie_file fs writeOk tmpPath path).ret = none)
    ∧ (fs path = none →
        (get_cookie_file fs writeOk tmpPath path).ret = none)
    ∧ (fs path = some .emptyFile →
        (get_cookie_file fs writeOk tmpPath path).ret = none)
    ∧ (∀ records, fs path = some (.jsonArray records) → writeOk = false →
        (get_cookie_file fs writeOk tmpPath path).ret = none)
    ∧ (∀ t, path.isEmpty = false → fs path = some (.otherText t) →
        (get_cookie_file fs writeOk tmpPath path).ret = some path) := by
  unfold get_cookie_file
  by_cases hp : path.isEmpty
  · simp [hp]
  · simp only [hp, if_false, Bool.false_eq_true, false_implies, true_and]
    cases hfs : fs path with
    | none => simp
    | some d =>
        cases d with
        | emptyFile => simp
        | jsonArray records =>
            refine ⟨?_, by simp, by simp, ?_, by simp⟩
            · by_cases hw : writeOk <;> simp [hw]
            · intro r hr hw
              cases hr
              simp [hw]
        | otherText t => simp

/-- Witness for the C1 amended theorem at concrete inputs: a missing
source file yields null, and an otherText source yields the original
path. -/
theorem c1_normalize_taxonomy_witness :
    (get_cookie_file (fun _ => none) true "/tmp/t" "missing.txt").ret = none
    ∧ (get_cookie_file
        (fun p => if p = "nc.txt" then some (.otherText "# data") else none)
        false "/tmp/t" "nc.txt").ret = some "nc.txt" :=
  ⟨(c1_normalize_taxonomy (fun _ => none) true "/tmp/t" "missing.txt").2.2.1 rfl,
   (c1_normalize_taxonomy
      (fun p => if p = "nc.txt" then some (.otherText "# data") else none)
      false "/tmp/t" "nc.txt").2.2.2.2.2 "# data" (by decide) (by decide)⟩

/-- C4: for every browser-exported JSON cookie array the converted file
has the standard Netscape header line followed by exactly one line per
input record (same count); each line is the tab-joined seven columns in
the fixed order domain, include-subdomains flag, path, secure flag,
expiry, name, value; a record missing `expires` gets expiry `0`. -/
theorem c4_json_conversion_shape (records : List CookieJSON) :
    (netscapeLines records).length = records.length + 1
    ∧ (netscapeLines records).head? = some netscapeHeader
    ∧ (∀ i : Nat, (netscapeLines records)[i + 1]? =
        (records[i]?).map cookieLine)
    ∧ (∀ c : CookieJSON, cookieLine c =
        c.domain ++ "\t" ++ boolFlag (domainLeadingDot c.domain) ++ "\t" ++
        c.path.getD "/" ++ "\t" ++ boolFlag (c.secure.getD false) ++ "\t" ++
        toString (c.expires.getD 0) ++ "\t" ++ c.name ++ "\t" ++ c.value)
    ∧ (∀ c : CookieJSON, c.expires = none →
        toString (c.expires.getD 0) = "0") := by
  refine ⟨by simp [netscapeLines], rfl, ?_, ?_, ?_⟩
  · intro i
    simp [netscapeLines]
  · intro c
    simp [cookieLine, cookieLineFields, String.intercalate,
      String.intercalate.go, String.append_assoc]
  · intro c h
    rw [h]
    rfl

/-- Witness for the C4 theorem at a concrete two-record array, with the
second record missing its `expires` field. -/
theorem c4_json_conversion_shape_witness :
    (netscapeLines
        [⟨"n1", "v1", ".example.com", some "/a", some true, some 123⟩,
         ⟨"n2", "v2", "example.com", none, none, none⟩]).length = 3
    ∧ toString ((none : Option Int).getD 0) = "0" := by
  refine ⟨?_, ?_⟩
  · exact (c4_json_conversion_shape
      [⟨"n1", "v1", ".example.com", some "/a", some true, some 123⟩,
       ⟨"n2", "v2", "example.com", none, none, none⟩]).1
  · exact (c4_json_conversion_shape []).2.2.2.2
      ⟨"n2", "v2", "example.com", none, none, none⟩ rfl

/-- C5: a source file whose content does not parse as a JSON array of
objects (an already-Netscape-formatted file, malformed JSON, or a JSON
file with a non-array top level) is passed through: the call returns the
original input path and performs no conversion (the file store is
unchanged). -/
theorem c5_passthrough (fs : String → Option FileData) (writeOk : Bool)
    (tmpPath path t : String) (hp : path.isEmpty = false)
    (h : fs path = some (.otherText t)) :
    get_cookie_file fs writeOk tmpPath path = ⟨some path, fs⟩ := by
  simp [get_cookie_file, hp, h]

/-- Witness for the C5 theorem: a concrete Netscape-text file is
returned unchanged. -/
theorem c5_passthrough_witness :
    get_cookie_file
      (fun p => if p = "nc.txt" then some (.otherText "# some lines") else none)
      true "/tmp/conv" "nc.txt" =
    ⟨some "nc.txt",
     fun p => if p = "nc.txt" then some (.otherText "# some lines") else none⟩ :=
  c5_passthrough
    (fun p => if p = "nc.txt" then some (.otherText "# some lines") else none)
    true "/tmp/conv" "nc.txt" "# some lines" (by decide) (by decide)

/-- C6: the include-subdomains column of a converted record is `TRUE`
exactly when the record's domain starts with the character `.`; in
particular domain `.example.com` yields `TRUE` and `example.com` yields
`FALSE`. -/
theorem c6_subdomain_flag (c : CookieJSON) :
    (cookieLineFields c)[1]? =
      some (boolFlag (domainLeadingDot c.domain))
    ∧ (boolFlag (domainLeadingDot c.domain) = "TRUE" ↔
        c.domain.toList.head? = some '.')
    ∧ boolFlag (domainLeadingDot ".example.com") = "TRUE"
    ∧ boolFlag (domainLeadingDot "example.com") = "FALSE" := by
  refine ⟨rfl, ?_, by decide, by decide⟩
  rw [boolFlag_eq_TRUE]
  exact domainLeadingDot_iff c.domain

/-- C7: the normalizer never mutates any file other than the fresh
temporary path (in particular the source file is unchanged); when
conversion occurs the returned value is the temporary path, the
converted content is written there, and — the temporary path being fresh
— the write creates a new file rather than touching an existing one; no
call removes an existing file; and when the write fails or no conversion
occurs the store is unchanged entirely. -/
theorem c7_frame (fs : String → Option FileData) (writeOk : Bool)
    (tmpPath path : String) :
    (∀ q, q ≠ tmpPath →
        (get_cookie_file fs writeOk tmpPath path).fs q = fs q)
    ∧ (∀ records, path.isEmpty = false →
        fs path = some (.jsonArray records) → writeOk = true →
        (get_cookie_file fs writeOk tmpPath path).ret = some tmpPath
        ∧ (get_cookie_file fs writeOk tmpPath path).fs tmpPath =
            some (.otherText (netscapeFileContent records))
        ∧ (fs tmpPath = none →
            (get_cookie_file fs writeOk tmpPath path).fs tmpPath ≠ fs tmpPath))
    ∧ (∀ q d, q ≠ tmpPath → fs q = some d →
        (get_cookie_file fs writeOk tmpPath path).fs q = some d)
    ∧ ((∀ records, fs path ≠ some (.jsonArray records)) →
        (get_cookie_file fs writeOk tmpPath path).fs = fs)
    ∧ (writeOk = false →
        (get_cookie_file fs writeOk tmpPath path).fs = fs) := by
  constructor
  · intro q hq
    unfold get_cookie_file
    by_cases hp : path.isEmpty
    · simp [hp]
    · cases hfs : fs path with
      | none => simp [hp]
      | some d =>
          cases d with
          | emptyFile => simp [hp]
          | jsonArray records =>
              by_cases hw : writeOk <;> simp [hp, hw, hq]
          | otherText t => simp [hp]
  constructor
  · intro records hp hfs hw
    refine ⟨by simp [get_cookie_file, hp, hfs, hw],
            by simp [get_cookie_file, hp, hfs, hw], ?_⟩
    intro h0
    simp [get_cookie_file, hp, hfs, hw, h0]
  constructor
  · intro q d hq hd
    unfold get_cookie_file
    by_cases hp : path.isEmpty
    · simp [hp, hd]
    · cases hfs : fs path with
      | none => simp [hp, hd]
      | some fd =>
          cases fd with
          | emptyFile => simp [hp, hd]
          | jsonArray records =>
              by_cases hw : writeOk <;> simp [hp, hw, hq, hd]
          | otherText t => simp [hp, hd]
  constructor
  · intro hnot
    unfold get_cookie_file
    by_cases hp : path.isEmpty
    · simp [hp]
    · cases hfs : fs path with
      | none => simp [hp]
      | some fd =>
          cases fd with
          | emptyFile => simp [hp]
          | jsonArray records => exact absurd hfs (hnot records)
          | otherText t => simp [hp]
  · intro hw
    unfold get_cookie_file
    by_cases hp : path.isEmpty
    · simp [hp]
    · cases hfs : fs path with
      | none => simp [hp]
      | some fd =>
          cases fd with
          | emptyFile => simp [hp]
          | jsonArray records => simp [hp, hw]
          | otherText t => simp [hp]

/-- Witness for the C7 theorem: converting a concrete one-record JSON
file writes the fresh temporary path, returns it, and leaves the source
path's content as it was. -/
theorem c7_frame_witness :
    (get_cookie_file
        (fun p => if p = "c.json" then
            some (.jsonArray [⟨"n", "v", "d.com", none, none, none⟩]) else none)
        true "/tmp/conv" "c.json").fs "c.json" =
      some (.jsonArray [⟨"n", "v", "d.com", none, none, none⟩])
    ∧ (get_cookie_file
        (fun p => if p = "c.json" then
            some (.jsonArray [⟨"n", "v", "d.com", none, none, none⟩]) else none)
        true "/tmp/conv" "c.json").ret = some "/tmp/conv" := by
  constructor
  · have h := (c7_frame
      (fun p => if p = "c.json" then
          some (.jsonArray [⟨"n", "v", "d.com", none, none, none⟩]) else none)
      true "/tmp/conv" "c.json").1 "c.json" (by decide)
    rw [h]
    decide
  · exact ((c7_frame
      (fun p => if p = "c.json" then
          some (.jsonArray [⟨"n", "v", "d.com", none, none, none⟩]) else none)
      true "/tmp/conv" "c.json").2.1 [⟨"n", "v", "d.com", none, none, none⟩]
      (by decide) (by decide) rfl).1

/-- Helper for the C2 claim: a falsy normalizer result makes the shared
cookie block yield no `cookiefile` option. -/
theorem cookieFileOption_of_falsy (cookie_file : String)
    (gcf : String → Option String)
    (hnull : truthyOpt (gcf cookie_file) = false) :
    cookieFileOption cookie_file gcf = none := by
  unfold cookieFileOption
  by_cases hcf : cookie_file.isEmpty
  · simp [hcf]
  · simp only [hcf, if_false, Bool.false_eq_true]
    cases hg : gcf cookie_file with
    | none => rfl
    | some s =>
        have : s.isEmpty = true := by
          have := hnull
          rw [hg] at this
          simpa [truthyOpt] using this
        simp [this]

/-- C2: in each modelled node, when the `cookie_file` input is non-empty
and `get_cookie_file` returns null or a falsy value, the `cookiefile`
option is omitted from the built options dictionary, and the node's
execution is identical to an execution with no cookie file at all — the
null result never fails or aborts the node. -/
theorem c2_null_cookie_omitted (gcf : String → Option String)
    (cookie_file : String) (hcf : cookie_file.isEmpty = false)
    (hnull : truthyOpt (gcf cookie_file) = false) :
    cookieFileOption cookie_file gcf = none
    ∧ (∀ (inp : DownloadPy.Inputs) (outDir : String),
        inp.cookie_file = cookie_file →
        (DownloadPy.buildOpts inp gcf outDir).cookiefile = none)
    ∧ (SearchNode.buildOpts cookie_file gcf).cookiefile = none
    ∧ (InfoNode.buildOpts cookie_file gcf).cookiefile = none
    ∧ (∀ s0 se sm (inp : DownloadPy.Inputs) lib,
        inp.cookie_file = cookie_file →
        (DownloadPy.execute s0 se sm inp lib gcf).result =
          (DownloadPy.execute s0 se sm
            { inp with cookie_file := "" } lib gcf).result
        ∧ (DownloadPy.execute s0 se sm inp lib gcf).state =
          (DownloadPy.execute s0 se sm
            { inp with cookie_file := "" } lib gcf).state)
    ∧ (∀ (inp : SearchNode.Inputs) lib, inp.cookie_file = cookie_file →
        SearchNode.execute inp lib gcf =
          SearchNode.execute { inp with cookie_file := "" } lib gcf)
    ∧ (∀ (inp : InfoNode.Inputs) lib, inp.cookie_file = cookie_file →
        InfoNode.execute inp lib gcf =
          InfoNode.execute { inp with cookie_file := "" } lib gcf) := by
  have hcfo : cookieFileOption cookie_file gcf = none :=
    cookieFileOption_of_falsy cookie_file gcf hnull
  have hemptyStr : "".isEmpty = true := rfl
  have hempty : ∀ g : String → Option String, cookieFileOption "" g = none := by
    intro g
    simp [cookieFileOption, hemptyStr]
  refine ⟨hcfo, ?_, ?_, ?_, ?_, ?_, ?_⟩
  · intro inp outDir hinp
    simp [DownloadPy.buildOpts, hinp, hcfo]
  · simp [SearchNode.buildOpts, hcfo]
  · simp [InfoNode.buildOpts, hcfo]
  · intro s0 se sm inp lib hinp
    obtain ⟨url, od, fm, ea, af, aq, ws, was, sl, cf⟩ := inp
    dsimp only at hinp
    subst hinp
    have hopts : ∀ outDir,
        DownloadPy.buildOpts ⟨url, od, fm, ea, af, aq, ws, was, sl, cf⟩ gcf outDir =
        DownloadPy.buildOpts ⟨url, od, fm, ea, af, aq, ws, was, sl, ""⟩ gcf outDir := by
      intro outDir
      simp [DownloadPy.buildOpts, hcfo, hempty]
    unfold DownloadPy.execute
    cases url with
    | none => exact ⟨rfl, rfl⟩
    | some u =>
        dsimp only
        simp only [hopts]
        constructor <;>
          · rcases lib.extractInfo _ with e | i
            · rfl
            · dsimp only
              split
              · rfl
              · rcases lib.download _ with e2 | i2 <;> rfl
  · intro inp lib hinp
    have hopts : SearchNode.buildOpts inp.cookie_file gcf =
        SearchNode.buildOpts "" gcf := by
      simp [SearchNode.buildOpts, hinp, hcfo, hempty]
    unfold SearchNode.execute
    rcases inp with ⟨q, m, s, cf⟩
    dsimp only at hopts ⊢
    rw [hopts]
  · intro inp lib hinp
    have hopts : InfoNode.buildOpts inp.cookie_file gcf =
        InfoNode.buildOpts "" gcf := by
      simp [InfoNode.buildOpts, hinp, hcfo, hempty]
    unfold InfoNode.execute
    rcases inp with ⟨u, cf⟩
    dsimp only at hopts ⊢
    rw [hopts]

/-- Witness for the C2 theorem: with a normalizer returning null for a
concrete non-empty cookie path, the search node's options omit
`cookiefile` and the info node's execution equals the cookie-less one. -/
theorem c2_null_cookie_omitted_witness :
    (SearchNode.buildOpts "c.json" (fun _ => none)).cookiefile = none
    ∧ InfoNode.execute ⟨some "u", "c.json"⟩
        (fun _ => .ok ⟨some "t", none, none, [], []⟩) (fun _ => none) =
      InfoNode.execute ⟨some "u", ""⟩
        (fun _ => .ok ⟨some "t", none, none, [], []⟩) (fun _ => none) :=
  ⟨(c2_null_cookie_omitted (fun _ => none) "c.json" (by decide) rfl).2.2.1,
   (c2_null_cookie_omitted (fun _ => none) "c.json" (by decide) rfl).2.2.2.2.2.2
     ⟨some "u", "c.json"⟩ (fun _ => .ok ⟨some "t", none, none, [], []⟩) rfl⟩

/-- C3 (counterexample): the claim says `get_cookie_file` runs at most
once per download-node execution, but the yt-dlp download node invokes
it twice — once for the info-probe options and once for the download
options — on a successful run with a non-empty cookie file. -/
theorem c3_counterexample :
    (YtDlpDownload.execute
        ⟨some "https://youtu.be/x", some "/out", some "1080p", false, "en", "c.json"⟩
        ⟨fun _ => .ok ⟨[], [], [⟨"18", "mp4", "avc1", "mp4a"⟩]⟩,
         fun _ => .ok ["/out/v.mp4"]⟩
        (fun _ => none)).gcfCalls = 2
    ∧ ¬((YtDlpDownload.execute
        ⟨some "https://youtu.be/x", some "/out", some "1080p", false, "en", "c.json"⟩
        ⟨fun _ => .ok ⟨[], [], [⟨"18", "mp4", "avc1", "mp4a"⟩]⟩,
         fun _ => .ok ["/out/v.mp4"]⟩
        (fun _ => none)).gcfCalls ≤ 1) := by
  constructor <;> decide

/-- C3 (amended): per execution, the legacy download node of
`download.py` invokes the normalizer at most once, while the yt-dlp
download node of `youtube_download_node.py` invokes it at most twice
(the second invocation happens on runs that reach the download-options
cookie block with a non-empty cookie file). -/
theorem c3_gcf_call_bound :
    (∀ s0 se sm inp lib gcf,
        (DownloadPy.execute s0 se sm inp lib gcf).gcfCalls ≤ 1)
    ∧ (∀ inp lib gcf,
        (YtDlpDownload.execute inp lib gcf).gcfCalls ≤ 2) := by
  constructor
  · intro s0 se sm inp lib gcf
    unfold DownloadPy.execute
    cases inp.url with
    | none => exact Nat.zero_le 1
    | some u =>
        dsimp only
        have hcalls : (if inp.cookie_file.isEmpty = true then 0 else 1) ≤ 1 := by
          split <;> omega
        rcases lib.extractInfo _ with e | i
        · exact hcalls
        · dsimp only
          split
          · exact hcalls
          · rcases lib.download _ with e2 | i2
            · exact hcalls
            · exact hcalls
  · intro inp lib gcf
    unfold YtDlpDownload.execute
    rcases inp with ⟨url, dp, q, sa, sublangs, cf⟩
    dsimp only
    rcases url with _ | u <;> rcases dp with _ | p <;>
      rcases q with _ | qual <;> try exact Nat.zero_le 2
    dsimp only
    have h1 : (if cf.isEmpty = true then 0 else 1) ≤ 1 := by
      split <;> omega
    have h2 : (if cf.isEmpty = true then 0 else 1) +
        (if cf.isEmpty = true then 0 else 1) ≤ 2 := by
      split <;> omega
    rcases lib.extractInfo _ with e | i
    · dsimp only
      omega
    · dsimp only
      rcases YtDlpDownload.formatSelect sa i.formats with e2 | f
      · dsimp only
        omega
      · dsimp only
        rcases lib.download f with e3 | d
        · exact h2
        · exact h2

/-- C8 (counterexample): the claim says every caught exception yields
`error_message` set to the exception's text, but `download.py` replaces
any exception text merely containing the interruption marker by the
fixed marker string, so the stored message differs from the exception's
text. -/
theorem c8_counterexample :
    (DownloadPy.execute ⟨false, false⟩ false false
        ⟨some "u", "/o", "best", false, "mp3", 5, false, false, "en", ""⟩
        ⟨fun _ => .error "ERROR: Download interrupted by user",
         fun _ => .error "x", fun _ => false⟩
        (fun _ => none)).result =
      ⟨false, some "Download interrupted by user"⟩
    ∧ "Download interrupted by user" ≠ "ERROR: Download interrupted by user" := by
  constructor <;> decide

/-- C8 (amended): in each modelled node's `execute`, an exception is
caught and mapped to a returned dictionary with success `False`; the
`error_message` is the exception's text, except in the interruptible
download node, which maps any text containing the interruption marker to
the fixed marker message; on the success path the returned dictionary
has success `True`. -/
theorem c8_execute_wrapping :
    (∀ s0 se sm (inp : DownloadPy.Inputs) lib gcf u e,
        inp.url = some u →
        lib.extractInfo (DownloadPy.buildOpts inp gcf
          (if inp.output_dir.isEmpty = true then "/tmp/mkdtemp"
           else inp.output_dir)) = .error e →
        (DownloadPy.execute s0 se sm inp lib gcf).result =
          ⟨false, some (mapDownloadError e)⟩)
    ∧ (∀ (s0 : DownloadPy.NodeState) (inp : DownloadPy.Inputs) lib gcf u i1 i2,
        inp.url = some u → s0.interrupted = false →
        lib.extractInfo (DownloadPy.buildOpts inp gcf
          (if inp.output_dir.isEmpty = true then "/tmp/mkdtemp"
           else inp.output_dir)) = .ok i1 →
        lib.download (DownloadPy.buildOpts inp gcf
          (if inp.output_dir.isEmpty = true then "/tmp/mkdtemp"
           else inp.output_dir)) = .ok i2 →
        (DownloadPy.execute s0 false false inp lib gcf).result = ⟨true, none⟩)
    ∧ (∀ (inp : InfoNode.Inputs) lib gcf u e, inp.url = some u →
        lib (InfoNode.buildOpts inp.cookie_file gcf) = .error e →
        InfoNode.execute inp lib gcf = ⟨false, some e⟩)
    ∧ (∀ (inp : InfoNode.Inputs) lib gcf u i, inp.url = some u →
        lib (InfoNode.buildOpts inp.cookie_file gcf) = .ok i →
        InfoNode.execute inp lib gcf = ⟨true, none⟩)
    ∧ (∀ (inp : SubtitleNode.Inputs) lib gcf u lng sp e,
        inp.url = some u → inp.language = some lng → inp.save_path = some sp →
        lib.extract (SubtitleNode.buildOpts lng inp.cookie_file gcf) = .error e →
        SubtitleNode.execute inp lib gcf = ⟨false, some e⟩)
    ∧ (∀ (inp : SubtitleNode.Inputs) lib gcf u lng sp base,
        inp.url = some u → inp.language = some lng → inp.save_path = some sp →
        lib.extract (SubtitleNode.buildOpts lng inp.cookie_file gcf) = .ok base →
        lib.subEx (base ++ "." ++ lng ++ ".vtt") = true →
        SubtitleNode.execute inp lib gcf = ⟨true, none⟩) := by
  refine ⟨?_, ?_, ?_, ?_, ?_, ?_⟩
  · intro s0 se sm inp lib gcf u e hu he
    unfold DownloadPy.execute
    rw [hu]
    dsimp only
    rw [he]
  · intro s0 inp lib gcf u i1 i2 hu hs0 h1 h2
    unfold DownloadPy.execute
    rw [hu]
    dsimp only
    rw [h1]
    dsimp only
    rw [hs0]
    simp only [Bool.or_self, Bool.false_eq_true, if_false]
    rw [h2]
  · intro inp lib gcf u e hu he
    unfold InfoNode.execute
    rw [hu]
    dsimp only
    rw [he]
  · intro inp lib gcf u i hu hi
    unfold InfoNode.execute
    rw [hu]
    dsimp only
    rw [hi]
  · intro inp lib gcf u lng sp e hu hl hs he
    unfold SubtitleNode.execute
    rw [hu, hl, hs]
    dsimp only
    rw [he]
  · intro inp lib gcf u lng sp base hu hl hs hb hex
    unfold SubtitleNode.execute
    rw [hu, hl, hs]
    dsimp only
    rw [hb]
    dsimp only
    rw [hex]
    rfl

/-- Witness for the C8 amended theorem: the info node at concrete inputs
maps a concrete library exception to a failure dictionary carrying that
text, and a concrete successful extraction to a success dictionary. -/
theorem c8_execute_wrapping_witness :
    InfoNode.execute ⟨some "u", ""⟩ (fun _ => .error "boom") (fun _ => none) =
      ⟨false, some "boom"⟩
    ∧ InfoNode.execute ⟨some "u", ""⟩
        (fun _ => .ok ⟨some "t", none, none, [], []⟩) (fun _ => none) =
      ⟨true, none⟩ :=
  ⟨c8_execute_wrapping.2.2.1 ⟨some "u", ""⟩ (fun _ => .error "boom")

     (fun _ => none) "u" "boom" rfl rfl,
   c8_execute_wrapping.2.2.2.1 ⟨some "u", ""⟩
     (fun _ => .ok ⟨some "t", none, none, [], []⟩)
     (fun _ => none) "u" ⟨some "t", none, none, [], []⟩ rfl rfl⟩

/-- C9 (counterexample): the claim says the cancellation state is reset
before `execute` returns on both success and error paths, but an
exception raised before the inner try — a missing required `url` input —
returns through the outer handler with the interruption flag still set,
so a stop request landing in that window leaks into the next execution. -/
theorem c9_counterexample :
    (DownloadPy.execute ⟨false, false⟩ true false
        ⟨none, "", "best", false, "mp3", 5, false, false, "en", ""⟩
        ⟨fun _ => .error "x", fun _ => .error "x", fun _ => false⟩
        (fun _ => none)).state.interrupted = true
    ∧ (DownloadPy.execute ⟨false, false⟩ true false
        ⟨none, "", "best", false, "mp3", 5, false, false, "en", ""⟩
        ⟨fun _ => .error "x", fun _ => .error "x", fun _ => false⟩
        (fun _ => none)).result.success = false := by
  constructor <;> rfl

/-- C9 (amended): on every execution that enters the download context —
the `url` input is present, so the inner try wrapping the library calls
is reached — the `finally` block resets `_ydl` to None and
`_is_interrupted` to False before `execute` returns, on success, error
and interruption paths alike, whatever the initial state and whenever a
stop request lands. -/
theorem c9_state_reset (s0 : DownloadPy.NodeState) (se sm : Bool)
    (inp : DownloadPy.Inputs) (lib : DownloadPy.Lib)
    (gcf : String → Option String) (u : String) (hu : inp.url = some u) :
    (DownloadPy.execute s0 se sm inp lib gcf).state = ⟨false, false⟩ := by
  unfold DownloadPy.execute
  rw [hu]
  dsimp only
  rcases lib.extractInfo _ with e | i
  · rfl
  · dsimp only
    split
    · rfl
    · rcases lib.download _ with e2 | i2 <;> rfl

/-- Witness for the C9 amended theorem: a run that starts interrupted
and fails in the library still returns with both flags cleared. -/
theorem c9_state_reset_witness :
    (DownloadPy.execute ⟨true, true⟩ true true
        ⟨some "u", "", "best", false, "mp3", 5, false, false, "en", ""⟩
        ⟨fun _ => .error "x", fun _ => .error "x", fun _ => false⟩
        (fun _ => none)).state = ⟨false, false⟩ :=
  c9_state_reset ⟨true, true⟩ true true
    ⟨some "u", "", "best", false, "mp3", 5, false, false, "en", ""⟩
    ⟨fun _ => .error "x", fun _ => .error "x", fun _ => false⟩
    (fun _ => none) "u" rfl

/-- Helper for the C10 claim: one loop step preserves equality of the
four output-list lengths. -/
theorem plStep_preserves_lengths (cfg : PlaylistPy.Cfg) (subEx : String → Bool)
    (entryId : String) (acc : PlaylistPy.PlAcc)
    (out : PlaylistPy.ProcessOutcome)
    (h1 : acc.file_paths.length = acc.titles.length)
    (h2 : acc.titles.length = acc.durations.length)
    (h3 : acc.durations.length = acc.subtitle_files.length) :
    (PlaylistPy.plStep cfg subEx entryId acc out).file_paths.length =
      (PlaylistPy.plStep cfg subEx entryId acc out).titles.length
    ∧ (PlaylistPy.plStep cfg subEx entryId acc out).titles.length =
      (PlaylistPy.plStep cfg subEx entryId acc out).durations.length
    ∧ (PlaylistPy.plStep cfg subEx entryId acc out).durations.length =
      (PlaylistPy.plStep cfg subEx entryId acc out).subtitle_files.length := by
  unfold PlaylistPy.plStep
  rcases out with e | _ | vi
  · exact ⟨h1, h2, h3⟩
  · exact ⟨h1, h2, h3⟩
  · dsimp only
    split
    · simp [List.length_append, h1, h2, h3]
    · exact ⟨h1, h2, h3⟩

/-- Helper for the C10 claim: the playlist loop preserves equality of
the four output-list lengths from any starting accumulator. -/
theorem playlistLoop_preserves_lengths (cfg : PlaylistPy.Cfg)
    (subEx : String → Bool) (stop : Nat → Bool)
    (proc : Nat → PlaylistPy.ProcessOutcome) :
    ∀ (entries : List PlaylistPy.PlEntry) (i : Nat) (acc : PlaylistPy.PlAcc),
      acc.file_paths.length = acc.titles.length →
      acc.titles.length = acc.durations.length →
      acc.durations.length = acc.subtitle_files.length →
      (PlaylistPy.playlistLoop cfg subEx stop proc entries i
          acc).file_paths.length =
        (PlaylistPy.playlistLoop cfg subEx stop proc entries i
          acc).titles.length
      ∧ (PlaylistPy.playlistLoop cfg subEx stop proc entries i
          acc).titles.length =
        (PlaylistPy.playlistLoop cfg subEx stop proc entries i
          acc).durations.length
      ∧ (PlaylistPy.playlistLoop cfg subEx stop proc entries i
          acc).durations.length =
        (PlaylistPy.playlistLoop cfg subEx stop proc entries i
          acc).subtitle_files.length := by
  intro entries
  induction entries with
  | nil =>
      intro i acc h1 h2 h3
      exact ⟨h1, h2, h3⟩
  | cons e rest ih =>
      intro i acc h1 h2 h3
      unfold PlaylistPy.playlistLoop
      split
      · exact ⟨h1, h2, h3⟩
      · rcases e with _ | entryId
        · exact ih (i + 1) _ h1 h2 h3
        · obtain ⟨g1, g2, g3⟩ :=
            plStep_preserves_lengths cfg subEx entryId acc (proc i) h1 h2 h3
          exact ih (i + 1) _ g1 g2 g3

/-- C10: the playlist node's four output lists always have equal length:
starting from the empty accumulator the loop keeps them equal; each
processed entry whose required info fields are present appends exactly
one element to each of the four lists and none to `errors`; a raised
per-entry exception or a falsy info dictionary appends nothing to the
four lists and exactly one error. -/
theorem c10_playlist_lengths :
    (∀ cfg subEx stop proc entries,
        (PlaylistPy.playlistRun cfg subEx stop proc entries).file_paths.length =
          (PlaylistPy.playlistRun cfg subEx stop proc entries).titles.length
        ∧ (PlaylistPy.playlistRun cfg subEx stop proc entries).titles.length =
          (PlaylistPy.playlistRun cfg subEx stop proc entries).durations.length
        ∧ (PlaylistPy.playlistRun cfg subEx stop proc
            entries).durations.length =
          (PlaylistPy.playlistRun cfg subEx stop proc
            entries).subtitle_files.length)
    ∧ (∀ cfg subEx entryId acc (vi : PlaylistPy.VideoInfo) title idv ex,
        vi.title = some title → vi.id = some idv →
        (if cfg.extract_audio then some cfg.audio_format else vi.ext) =
          some ex →
        (PlaylistPy.plStep cfg subEx entryId acc
            (.ok vi)).file_paths.length = acc.file_paths.length + 1
        ∧ (PlaylistPy.plStep cfg subEx entryId acc
            (.ok vi)).titles.length = acc.titles.length + 1
        ∧ (PlaylistPy.plStep cfg subEx entryId acc
            (.ok vi)).durations.length = acc.durations.length + 1
        ∧ (PlaylistPy.plStep cfg subEx entryId acc
            (.ok vi)).subtitle_files.length = acc.subtitle_files.length + 1
        ∧ (PlaylistPy.plStep cfg subEx entryId acc (.ok vi)).errors =
            acc.errors)
    ∧ (∀ cfg subEx entryId acc e,
        (PlaylistPy.plStep cfg subEx entryId acc (.raised e)).file_paths =
          acc.file_paths
        ∧ (PlaylistPy.plStep cfg subEx entryId acc (.raised e)).titles =
          acc.titles
        ∧ (PlaylistPy.plStep cfg subEx entryId acc (.raised e)).durations =
          acc.durations
        ∧ (PlaylistPy.plStep cfg subEx entryId acc (.raised e)).subtitle_files =
          acc.subtitle_files
        ∧ (PlaylistPy.plStep cfg subEx entryId acc
            (.raised e)).errors.length = acc.errors.length + 1)
    ∧ (∀ cfg subEx entryId acc,
        (PlaylistPy.plStep cfg subEx entryId acc .nullInfo).file_paths =
          acc.file_paths
        ∧ (PlaylistPy.plStep cfg subEx entryId acc .nullInfo).titles =
          acc.titles
        ∧ (PlaylistPy.plStep cfg subEx entryId acc .nullInfo).durations =
          acc.durations
        ∧ (PlaylistPy.plStep cfg subEx entryId acc .nullInfo).subtitle_files =
          acc.subtitle_files
        ∧ (PlaylistPy.plStep cfg subEx entryId acc
            .nullInfo).errors.length = acc.errors.length + 1) := by
  refine ⟨?_, ?_, ?_, ?_⟩
  · intro cfg subEx stop proc entries
    exact playlistLoop_preserves_lengths cfg subEx stop proc entries 1
      PlaylistPy.initAcc rfl rfl rfl
  · intro cfg subEx entryId acc vi title idv ex ht hi hex
    unfold PlaylistPy.plStep
    dsimp only
    rw [ht, hi, hex]
    simp [List.length_append]
  · intro cfg subEx entryId acc e
    unfold PlaylistPy.plStep
    simp [List.length_append]
  · intro cfg subEx entryId acc
    unfold PlaylistPy.plStep
    simp [List.length_append]

/-- Witness for the C10 theorem: a three-entry playlist with one
success, one per-entry exception and one falsy entry yields four output
lists of equal length one each. -/
theorem c10_playlist_lengths_witness :
    ((PlaylistPy.playlistRun ⟨"/o", false, "mp3", false, false⟩
        (fun _ => false) (fun _ => false)
        (fun i => if i = 1 then
            .ok ⟨some "t", some "id1", some "mp4", some 10, none⟩
          else .raised "boom")
        [.present "id1", .present "id2", .missing]).file_paths.length =
      (PlaylistPy.playlistRun ⟨"/o", false, "mp3", false, false⟩
        (fun _ => false) (fun _ => false)
        (fun i => if i = 1 then
            .ok ⟨some "t", some "id1", some "mp4", some 10, none⟩
          else .raised "boom")
        [.present "id1", .present "id2", .missing]).titles.length)
    ∧ (PlaylistPy.plStep ⟨"/o", false, "mp3", false, false⟩ (fun _ => false)
        "id1" PlaylistPy.initAcc
        (.ok ⟨some "t", some "id1", some "mp4", some 10, none⟩)).file_paths.length
      = PlaylistPy.initAcc.file_paths.length + 1 :=
  ⟨(c10_playlist_lengths.1 ⟨"/o", false, "mp3", false, false⟩
      (fun _ => false) (fun _ => false)
      (fun i => if i = 1 then
          .ok ⟨some "t", some "id1", some "mp4", some 10, none⟩
        else .raised "boom")
      [.present "id1", .present "id2", .missing]).1,
   (c10_playlist_lengths.2.1 ⟨"/o", false, "mp3", false, false⟩
      (fun _ => false) "id1" PlaylistPy.initAcc
      ⟨some "t", some "id1", some "mp4", some 10, none⟩
      "t" "id1" "mp4" rfl rfl rfl).1⟩
